import Mathlib

/-!
Verification of `downloader_all_sat.py`, a single-pass Landsat bulk
downloader.  We shallowly embed the pure logic of the script: calendar
dates with Python's tuple ordering, the `overlaps` interval predicate and
`get_valid_datasets`, the band-matching candidate-selection loop, the
post-accumulation control flow (empty-accumulator exit versus bulk
download request), the `downloadFile` helper with its try/except and
`content-disposition` parsing, and the `.TIF` extension-normalisation
pass.  Network and filesystem effects are modelled by explicit
environment records carrying `Except` outcomes; Python's `set` of dataset
names is modelled as a list whose membership is the meaning (Python set
iteration order is abstracted away).
-/

/-- A calendar date, as Python's `datetime.date`: compared
lexicographically on (year, month, day).  `strptime` guarantees the
fields of any date reaching `overlaps` are in range. -/
structure Date where
  year : Nat
  month : Nat
  day : Nat
deriving DecidableEq, Repr

/-- Python `date.__le__`: lexicographic on (year, month, day). -/
def Date.leb (a b : Date) : Bool :=
  if a.year = b.year then
    if a.month = b.month then decide (a.day ≤ b.day)
    else decide (a.month < b.month)
  else decide (a.year < b.year)

/-- Python `date.__lt__`: strict lexicographic on (year, month, day). -/
def Date.ltb (a b : Date) : Bool :=
  if a.year = b.year then
    if a.month = b.month then decide (a.day < b.day)
    else decide (a.month < b.month)
  else decide (a.year < b.year)

/-- Python builtin `max(a, b)`: keeps `a` unless `b` is strictly larger. -/
def Date.max (a b : Date) : Date := if Date.ltb a b then b else a

/-- Python builtin `min(a, b)`: keeps `a` unless `b` is strictly smaller. -/
def Date.min (a b : Date) : Date := if Date.ltb b a then b else a

/-- A date with in-range month and day, as `strptime("%Y-%m-%d")`
produces (it rejects out-of-range fields). -/
def Date.isValid (d : Date) : Prop :=
  1 ≤ d.month ∧ d.month ≤ 12 ∧ 1 ≤ d.day ∧ d.day ≤ 31

instance (d : Date) : Decidable d.isValid := by
  unfold Date.isValid; infer_instance

/-- `overlaps` from `get_valid_datasets`:
`max(s1, s2) <= min(e1, e2)`. -/
def overlaps (s1 e1 s2 e2 : Date) : Bool :=
  Date.leb (Date.max s1 s2) (Date.min e1 e2)

/-- `datetime.date(1982, 7, 16)`: start of the TM validity interval. -/
def tmStart : Date := ⟨1982, 7, 16⟩

/-- `datetime.date(2011, 6, 5)`: end of the TM validity interval. -/
def tmEnd : Date := ⟨2011, 6, 5⟩

/-- `datetime.date(1999, 4, 15)`: start of the ETM+ validity interval. -/
def etmStart : Date := ⟨1999, 4, 15⟩

/-- `datetime.date(2022, 4, 6)`: end of the ETM+ validity interval. -/
def etmEnd : Date := ⟨2022, 4, 6⟩

/-- `datetime.date(2013, 2, 11)`: start of the OLI/TIRS validity
interval, whose end is `datetime.date.today()`. -/
def otStart : Date := ⟨2013, 2, 11⟩

/-- `get_valid_datasets(start_date, end_date)` after parsing, with
`datetime.date.today()` passed explicitly as `today`.  The Python `set`
is modelled as a list built by the three conditional `add`s; membership
is the meaning (iteration order of a Python set is abstracted). -/
def get_valid_datasets (startD endD today : Date) : List String :=
  (if overlaps startD endD tmStart tmEnd then ["landsat_tm_c2_l2"] else []) ++
  (if overlaps startD endD etmStart etmEnd then ["landsat_etm_c2_l2"] else []) ++
  (if overlaps startD endD otStart today then ["landsat_ot_c2_l2"] else [])

/-- Substring containment: Python's `in` operator on strings
(`bandName in item['displayId']`). -/
def containsSub (pat : List Char) : List Char → Bool
  | [] => pat.isEmpty
  | c :: rest => pat.isPrefixOf (c :: rest) || containsSub pat rest

/-- `pat in s` on strings. -/
def containsStr (pat s : String) : Bool := containsSub pat.data s.data

/-- `bandNames = ['QA_PIXEL', 'ST_B10', 'ST_B6']`. -/
def bandNames : List String := ["QA_PIXEL", "ST_B10", "ST_B6"]

/-- The base URL of the remote API. -/
def serviceUrl : String := "https://m2m.cr.usgs.gov/api/api/json/stable/"

/-- One entry of an option record's `secondaryDownloads` list: the fields
the selection loop reads (`bulkAvailable`, `displayId`, `entityId`, `id`). -/
structure SecondaryItem where
  bulkAvailable : Bool
  displayId : String
  entityId : String
  id : String
deriving DecidableEq, Repr

/-- An element of the `all_downloads` accumulator:
`{"entityId": item["entityId"], "productId": item["id"]}`. -/
structure Download where
  entityId : String
  productId : String
deriving DecidableEq, Repr

/-- The two inner loops of candidate selection (lines 131-136): for one
secondary item, iterate over `bandNames` and append
`{entityId, productId}` to `all_downloads` whenever
`item["bulkAvailable"] and bandName in item['displayId']`. -/
def accumulateItem (all_downloads : List Download) (item : SecondaryItem) :
    List Download :=
  bandNames.foldl (fun acc bandName =>
    if item.bulkAvailable && containsStr bandName item.displayId then
      acc ++ [{ entityId := item.entityId, productId := item.id }]
    else acc) all_downloads

/-- One normalized option record: its (possibly empty) list of secondary
downloads; a record whose `secondaryDownloads` is missing or empty fails
the truthiness test `if option.get('secondaryDownloads')` and is modelled
by the empty list. -/
structure OptionRecord where
  secondaryDownloads : List SecondaryItem
deriving Repr

/-- Per-dataset environment for one iteration of the dataset loop: the
entity ids the scene search returned (empty models "no scenes found",
which `continue`s), and the outcome of the download-options request
(`error` models `sendRequest` raising, caught by the try/except). -/
structure DatasetRun where
  sceneResults : List String
  options : Except String (List OptionRecord)

/-- One iteration of `for datasetName in datasetNames` (lines 91-136)
acting on the `all_downloads` accumulator: skip when no scenes were
found, skip (after catching the error) when the download-options call
fails, and otherwise run the candidate-selection loops over every option
record. -/
def processDataset (all_downloads : List Download) (d : DatasetRun) :
    List Download :=
  if d.sceneResults.isEmpty then all_downloads
  else
    match d.options with
    | Except.error _ => all_downloads
    | Except.ok opts =>
      opts.foldl (fun acc r =>
        if !r.secondaryDownloads.isEmpty then
          r.secondaryDownloads.foldl accumulateItem acc
        else acc) all_downloads

/-- The whole dataset loop: fold `processDataset` over the datasets,
starting from the empty accumulator `all_downloads = []`. -/
def runDatasets (ds : List DatasetRun) : List Download :=
  ds.foldl processDataset []

/-- `payload = {'downloads': all_downloads, 'label': label}` (line 144):
the accumulator is passed through unchanged, with no deduplication. -/
structure DownloadRequestPayload where
  downloads : List Download
  label : String
deriving DecidableEq, Repr

/-- Build the download-request payload from the accumulator. -/
def mkDownloadRequestPayload (all_downloads : List Download) (label : String) :
    DownloadRequestPayload := ⟨all_downloads, label⟩

/-- Observable actions of the main script after the dataset loop. -/
inductive MainAction where
  | printMsg (msg : String)
  | exitCode (code : Nat)
  | sendReq (endpoint : String) (payload : DownloadRequestPayload)
deriving DecidableEq, Repr

/-- Control flow after the dataset loop (lines 138-145): with an empty
accumulator (`if not all_downloads`), print and `sys.exit(0)`; otherwise
submit the download-request call with the accumulated candidate list. -/
def finalize (all_downloads : List Download) (label : String) :
    List MainAction :=
  if all_downloads.isEmpty then
    [MainAction.printMsg "No valid downloads found.", MainAction.exitCode 0]
  else
    [MainAction.sendReq (serviceUrl ++ "download-request")
      (mkDownloadRequestPayload all_downloads label)]

/-- Whether an action invokes the download-request endpoint. -/
def isDownloadRequest : MainAction → Bool
  | MainAction.sendReq ep _ => ep = serviceUrl ++ "download-request"
  | _ => false

/-- The HTTP response `requests.get` yields in `downloadFile`: the
`content-disposition` header (defaulted to the empty string by
`headers.get(..., '')`) and the body. -/
structure HttpResponse where
  disposition : String
  content : String
deriving Repr

/-- Environment for one `downloadFile(url, path)` call: the outcome of
`requests.get` (which may raise) and of `open`/`write` (which may
raise). -/
structure DownloadEnv where
  response : Except String HttpResponse
  writeResult : Except String Unit

/-- The first match of `re.findall(r"filename=(.+)", disposition)`
(`matches[0]`): scan for an occurrence of the literal `filename=`
followed by at least one character, `.` matching anything but a
newline, greedily to the end of the line. -/
def firstFilenameMatch : List Char → Option (List Char)
  | [] => none
  | c :: rest =>
    if ("filename=".data).isPrefixOf (c :: rest) then
      let cap := ((c :: rest).drop 9).takeWhile (fun ch => ch ≠ '\n')
      if cap.isEmpty then firstFilenameMatch rest else some cap
    else firstFilenameMatch rest

/-- Python `str.strip('"')`: drop double quotes from both ends. -/
def stripQuotes (l : List Char) : List Char :=
  ((l.dropWhile (fun ch => ch = '"')).reverse.dropWhile (fun ch => ch = '"')).reverse

/-- The body of `downloadFile`'s try block (lines 22-32), returning the
list of files written or the first uncaught error: fetch the response,
parse the filename out of `content-disposition` (returning early, with
nothing written, when there is no match), then write the body. -/
def downloadFileBody (env : DownloadEnv) : Except String (List String) :=
  match env.response with
  | Except.error e => Except.error e
  | Except.ok resp =>
    match firstFilenameMatch resp.disposition.data with
    | none => Except.ok []
    | some m =>
      match env.writeResult with
      | Except.error e => Except.error e
      | Except.ok _ => Except.ok [String.mk (stripQuotes m)]

/-- `downloadFile(url, path)` (lines 20-34): the whole body sits in a
`try`/`except Exception` that logs and swallows any error, so the caller
always gets a normal return carrying the files written before any
failure. -/
def downloadFile (env : DownloadEnv) : Except String (List String) :=
  match downloadFileBody env with
  | Except.ok written => Except.ok written
  | Except.error _ => Except.ok []

/-- Index of the last `.` in a character list, if any. -/
def lastIndexOfDot : List Char → Option Nat
  | [] => none
  | c :: rest =>
    match lastIndexOfDot rest with
    | some i => some (i + 1)
    | none => if c = '.' then some 0 else none

/-- `os.path.splitext` for a bare filename (no path separator, as
`os.listdir` entries are): split at the last dot, unless every character
before it is itself a dot (leading dots never start an extension). -/
def splitext (p : String) : String × String :=
  match lastIndexOfDot p.data with
  | none => (p, "")
  | some i =>
    if (p.data.take i).any (fun ch => ch ≠ '.') then
      (String.mk (p.data.take i), String.mk (p.data.drop i))
    else (p, "")

/-- Python `str.upper` on ASCII filenames. -/
def strUpper (s : String) : String := String.mk (s.data.map Char.toUpper)

/-- One file of the rename loop (lines 155-160): when
`ext.upper() == '.TIF'`, the file is renamed to `oldbase + '.tif'`;
otherwise it keeps its name.  (`os.path.isfile` is true for every entry
we model: downloaded files.) -/
def renameStep (filename : String) : String :=
  if strUpper (splitext filename).2 = ".TIF" then
    (splitext filename).1 ++ ".tif"
  else filename

/-- The rename pass over the whole output directory listing. -/
def renamePass (files : List String) : List String := files.map renameStep

theorem Date.leb_iff (a b : Date) : Date.leb a b = true ↔
    (a.year < b.year ∨ (a.year = b.year ∧
      (a.month < b.month ∨ (a.month = b.month ∧ a.day ≤ b.day)))) := by
  unfold Date.leb; split_ifs <;> simp_all

theorem Date.ltb_iff (a b : Date) : Date.ltb a b = true ↔
    (a.year < b.year ∨ (a.year = b.year ∧
      (a.month < b.month ∨ (a.month = b.month ∧ a.day < b.day)))) := by
  unfold Date.ltb; split_ifs <;> simp_all

theorem overlaps_iff (s1 e1 s2 e2 : Date) : overlaps s1 e1 s2 e2 = true ↔
    (Date.leb s1 e1 = true ∧ Date.leb s1 e2 = true ∧
     Date.leb s2 e1 = true ∧ Date.leb s2 e2 = true) := by
  unfold overlaps Date.max Date.min
  split_ifs with h1 h2 h2 <;>
    simp only [Date.leb_iff, Date.ltb_iff, Bool.not_eq_true] at * <;>
    omega

theorem mem_get_valid_datasets (s e t : Date) (x : String) :
    x ∈ get_valid_datasets s e t ↔
      ((x = "landsat_tm_c2_l2" ∧ overlaps s e tmStart tmEnd = true) ∨
       (x = "landsat_etm_c2_l2" ∧ overlaps s e etmStart etmEnd = true) ∨
       (x = "landsat_ot_c2_l2" ∧ overlaps s e otStart t = true)) := by
  unfold get_valid_datasets
  split_ifs with h1 h2 h3 <;> simp_all

/-- C1: for valid dates with `start_date <= end_date`, each of the three
dataset identifiers appears in `get_valid_datasets` iff the query window
overlaps that sensor's hardcoded validity interval under the
inclusive-bounds overlap `max(start1,start2) <= min(end1,end2)`
(TM: [1982-07-16, 2011-06-05]; ETM+: [1999-04-15, 2022-04-06];
OLI/TIRS: [2013-02-11, today]). -/
theorem c1_dataset_selection (s e t : Date) (hs : s.isValid) (he : e.isValid)
    (hse : Date.leb s e = true) :
    (("landsat_tm_c2_l2" ∈ get_valid_datasets s e t) ↔
      overlaps s e tmStart tmEnd = true) ∧
    (("landsat_etm_c2_l2" ∈ get_valid_datasets s e t) ↔
      overlaps s e etmStart etmEnd = true) ∧
    (("landsat_ot_c2_l2" ∈ get_valid_datasets s e t) ↔
      overlaps s e otStart t = true) := by
  refine ⟨?_, ?_, ?_⟩ <;> rw [mem_get_valid_datasets] <;> simp

theorem c1_dataset_selection_witness :
    (⟨2012, 1, 1⟩ : Date).isValid ∧ (⟨2014, 1, 1⟩ : Date).isValid ∧
    Date.leb ⟨2012, 1, 1⟩ ⟨2014, 1, 1⟩ = true ∧
    ((("landsat_tm_c2_l2" ∈ get_valid_datasets ⟨2012, 1, 1⟩ ⟨2014, 1, 1⟩ ⟨2026, 10, 12⟩) ↔
      overlaps ⟨2012, 1, 1⟩ ⟨2014, 1, 1⟩ tmStart tmEnd = true) ∧
    (("landsat_etm_c2_l2" ∈ get_valid_datasets ⟨2012, 1, 1⟩ ⟨2014, 1, 1⟩ ⟨2026, 10, 12⟩) ↔
      overlaps ⟨2012, 1, 1⟩ ⟨2014, 1, 1⟩ etmStart etmEnd = true) ∧
    (("landsat_ot_c2_l2" ∈ get_valid_datasets ⟨2012, 1, 1⟩ ⟨2014, 1, 1⟩ ⟨2026, 10, 12⟩) ↔
      overlaps ⟨2012, 1, 1⟩ ⟨2014, 1, 1⟩ otStart ⟨2026, 10, 12⟩ = true)) :=
  ⟨by decide, by decide, by decide,
    c1_dataset_selection _ _ _ (by decide) (by decide) (by decide)⟩

/-- C2 counterexample: for the window [2012-01-01, 2014-01-01] the code
does NOT include the TM identifier (TM's interval ends 2011-06-05, before
the window starts) and DOES include the ETM+ identifier, contradicting
the claim that exactly TM and OLI/TIRS are returned. -/
theorem c2_counterexample :
    "landsat_tm_c2_l2" ∉ get_valid_datasets ⟨2012, 1, 1⟩ ⟨2014, 1, 1⟩ ⟨2026, 10, 12⟩ ∧
    "landsat_etm_c2_l2" ∈ get_valid_datasets ⟨2012, 1, 1⟩ ⟨2014, 1, 1⟩ ⟨2026, 10, 12⟩ := by
  decide

/-- C2 (amended): for the window [2012-01-01, 2014-01-01] and any `today`
on or after 2013-02-11, `get_valid_datasets` returns exactly the ETM+ and
OLI/TIRS identifiers: it includes 'landsat_etm_c2_l2' and
'landsat_ot_c2_l2' and excludes 'landsat_tm_c2_l2'. -/
theorem c2_amended (t : Date) (ht : Date.leb otStart t = true) :
    "landsat_etm_c2_l2" ∈ get_valid_datasets ⟨2012, 1, 1⟩ ⟨2014, 1, 1⟩ t ∧
    "landsat_ot_c2_l2" ∈ get_valid_datasets ⟨2012, 1, 1⟩ ⟨2014, 1, 1⟩ t ∧
    "landsat_tm_c2_l2" ∉ get_valid_datasets ⟨2012, 1, 1⟩ ⟨2014, 1, 1⟩ t := by
  refine ⟨?_, ?_, ?_⟩
  · rw [mem_get_valid_datasets]
    exact Or.inr (Or.inl ⟨rfl, by decide⟩)
  · rw [mem_get_valid_datasets]
    refine Or.inr (Or.inr ⟨rfl, ?_⟩)
    rw [overlaps_iff]
    simp only [Date.leb_iff, otStart] at ht ⊢
    omega
  · intro hmem
    rw [mem_get_valid_datasets] at hmem
    rcases hmem with ⟨_, hov⟩ | ⟨hx, _⟩ | ⟨hx, _⟩
    · exact absurd hov (by decide)
    · exact absurd hx (by decide)
    · exact absurd hx (by decide)

theorem c2_amended_witness :
    "landsat_etm_c2_l2" ∈ get_valid_datasets ⟨2012, 1, 1⟩ ⟨2014, 1, 1⟩ ⟨2026, 10, 12⟩ ∧
    "landsat_ot_c2_l2" ∈ get_valid_datasets ⟨2012, 1, 1⟩ ⟨2014, 1, 1⟩ ⟨2026, 10, 12⟩ ∧
    "landsat_tm_c2_l2" ∉ get_valid_datasets ⟨2012, 1, 1⟩ ⟨2014, 1, 1⟩ ⟨2026, 10, 12⟩ :=
  c2_amended ⟨2026, 10, 12⟩ (by decide)

/-- C7: the `overlaps` predicate is commutative in its two intervals, and
inclusive at both endpoints: a degenerate window `[d, d]` overlaps
`[d, e]` whenever `d <= e`. -/
theorem c7_overlaps_comm_inclusive :
    (∀ s1 e1 s2 e2 : Date, overlaps s1 e1 s2 e2 = overlaps s2 e2 s1 e1) ∧
    (∀ d e : Date, Date.leb d e = true → overlaps d d d e = true) := by
  constructor
  · intro s1 e1 s2 e2
    have h1 := overlaps_iff s1 e1 s2 e2
    have h2 := overlaps_iff s2 e2 s1 e1
    cases hb1 : overlaps s1 e1 s2 e2 <;> cases hb2 : overlaps s2 e2 s1 e1 <;>
      simp_all
  · intro d e h
    rw [overlaps_iff]
    have hd : Date.leb d d = true := by rw [Date.leb_iff]; omega
    exact ⟨hd, h, hd, h⟩

theorem c7_witness :
    overlaps etmStart etmEnd otStart tmEnd = overlaps otStart tmEnd etmStart etmEnd ∧
    overlaps etmStart etmStart etmStart etmEnd = true :=
  ⟨c7_overlaps_comm_inclusive.1 _ _ _ _,
   c7_overlaps_comm_inclusive.2 etmStart etmEnd (by decide)⟩

/-- C9: widening the query window never removes a dataset: if
`[s1, e1] ⊆ [s2, e2]` then every identifier selected for `(s1, e1)` is
also selected for `(s2, e2)`, at the same `today`. -/
theorem c9_window_monotone (s1 e1 s2 e2 t : Date)
    (hs : Date.leb s2 s1 = true) (he : Date.leb e1 e2 = true) :
    ∀ x ∈ get_valid_datasets s1 e1 t, x ∈ get_valid_datasets s2 e2 t := by
  intro x hx
  rw [mem_get_valid_datasets] at hx ⊢
  have mono : ∀ a b : Date, overlaps s1 e1 a b = true →
      overlaps s2 e2 a b = true := by
    intro a b hov
    rw [overlaps_iff] at hov ⊢
    simp only [Date.leb_iff] at *
    omega
  have m1 := mono tmStart tmEnd
  have m2 := mono etmStart etmEnd
  have m3 := mono otStart t
  tauto

theorem c9_window_monotone_witness :
    "landsat_etm_c2_l2" ∈ get_valid_datasets ⟨1999, 1, 1⟩ ⟨2002, 1, 1⟩ ⟨2026, 10, 12⟩ :=
  c9_window_monotone ⟨2000, 1, 1⟩ ⟨2001, 1, 1⟩ ⟨1999, 1, 1⟩ ⟨2002, 1, 1⟩ ⟨2026, 10, 12⟩
    (by decide) (by decide) "landsat_etm_c2_l2" (by decide)

theorem append_cons_ne_self (acc : List Download) (x : Download)
    (l : List Download) : acc ++ x :: l ≠ acc := by
  intro h
  have h2 := congrArg List.length h
  rw [List.length_append, List.length_cons] at h2
  omega

theorem accumulateItem_eq_append (acc : List Download) (item : SecondaryItem) :
    accumulateItem acc item = acc ++ accumulateItem [] item := by
  unfold accumulateItem bandNames
  simp only [List.foldl_cons, List.foldl_nil]
  split_ifs <;> simp

theorem accumulateItem_nil_replicate (item : SecondaryItem) :
    accumulateItem [] item = List.replicate
      (bandNames.countP (fun b => item.bulkAvailable && containsStr b item.displayId))
      { entityId := item.entityId, productId := item.id } := by
  unfold accumulateItem bandNames
  simp only [List.foldl_cons, List.foldl_nil, List.countP_cons, List.countP_nil]
  split_ifs <;> rfl

/-- C3: a secondary item contributes to the `all_downloads` accumulator
iff its `bulkAvailable` flag is true AND its `displayId` contains at
least one of 'QA_PIXEL', 'ST_B10', 'ST_B6'; any item failing either
conjunct leaves the accumulator unchanged. -/
theorem c3_candidate_selection (acc : List Download) (item : SecondaryItem) :
    accumulateItem acc item ≠ acc ↔
      (item.bulkAvailable = true ∧
        (containsStr "QA_PIXEL" item.displayId = true ∨
         containsStr "ST_B10" item.displayId = true ∨
         containsStr "ST_B6" item.displayId = true)) := by
  rw [accumulateItem_eq_append]
  cases hb : item.bulkAvailable <;>
    cases hc1 : containsStr "QA_PIXEL" item.displayId <;>
    cases hc2 : containsStr "ST_B10" item.displayId <;>
    cases hc3 : containsStr "ST_B6" item.displayId <;>
    simp_all [accumulateItem, bandNames, append_cons_ne_self]

/-- C10: a single secondary item with `bulkAvailable` true is appended
once per matching band name — `k` identical entries when its `displayId`
contains `k` of the three substrings — and the download-request payload
carries the accumulator verbatim, with no deduplication. -/
theorem c10_duplicate_candidates (item : SecondaryItem) (dls : List Download)
    (label : String) (hb : item.bulkAvailable = true) :
    accumulateItem [] item = List.replicate
      (bandNames.countP (fun b => containsStr b item.displayId))
      { entityId := item.entityId, productId := item.id } ∧
    (mkDownloadRequestPayload dls label).downloads = dls := by
  constructor
  · rw [accumulateItem_nil_replicate]
    simp [hb]
  · rfl

theorem c10_duplicate_candidates_witness :
    accumulateItem [] ⟨true, "LC08_QA_PIXEL_ST_B10", "E1", "P1"⟩ = List.replicate
      (bandNames.countP (fun b => containsStr b "LC08_QA_PIXEL_ST_B10"))
      { entityId := "E1", productId := "P1" } ∧
    (mkDownloadRequestPayload [⟨"E1", "P1"⟩, ⟨"E1", "P1"⟩] "20241001_000000").downloads =
      [⟨"E1", "P1"⟩, ⟨"E1", "P1"⟩] :=
  c10_duplicate_candidates ⟨true, "LC08_QA_PIXEL_ST_B10", "E1", "P1"⟩
    [⟨"E1", "P1"⟩, ⟨"E1", "P1"⟩] "20241001_000000" rfl

/-- C4: with an empty candidate accumulator the run prints a message and
exits with status 0, and no action invoking the download-request
endpoint is ever emitted. -/
theorem c4_empty_accumulator_exit (label : String) :
    finalize [] label =
      [MainAction.printMsg "No valid downloads found.", MainAction.exitCode 0] ∧
    (finalize [] label).filter isDownloadRequest = [] := by
  constructor <;> rfl

theorem processDataset_options_error (acc : List Download) (d : DatasetRun)
    (e : String) (hE : d.options = Except.error e) :
    processDataset acc d = acc := by
  unfold processDataset
  rw [hE]
  split <;> rfl

/-- C8: a failing download-options call is caught: that dataset neither
changes the accumulator (candidates from other datasets are kept) nor
aborts the run — the whole loop behaves as if the failing dataset were
absent. -/
theorem c8_options_failure_isolated (acc : List Download)
    (pre post : List DatasetRun) (d : DatasetRun) (e : String)
    (hE : d.options = Except.error e) :
    processDataset acc d = acc ∧
    runDatasets (pre ++ d :: post) = runDatasets (pre ++ post) := by
  refine ⟨processDataset_options_error acc d e hE, ?_⟩
  unfold runDatasets
  rw [List.foldl_append, List.foldl_append, List.foldl_cons,
    processDataset_options_error _ d e hE]

theorem c8_options_failure_isolated_witness :
    processDataset [⟨"E0", "P0"⟩] ⟨["S1"], Except.error "boom"⟩ = [⟨"E0", "P0"⟩] ∧
    runDatasets ([⟨["S2"], Except.ok [⟨[⟨true, "A_ST_B6", "E2", "P2"⟩]⟩]⟩] ++
        (⟨["S1"], Except.error "boom"⟩ : DatasetRun) :: []) =
      runDatasets ([⟨["S2"], Except.ok [⟨[⟨true, "A_ST_B6", "E2", "P2"⟩]⟩]⟩] ++ []) :=
  c8_options_failure_isolated [⟨"E0", "P0"⟩]
    [⟨["S2"], Except.ok [⟨[⟨true, "A_ST_B6", "E2", "P2"⟩]⟩]⟩] []
    ⟨["S1"], Except.error "boom"⟩ "boom" rfl

theorem firstFilenameMatch_eq_none (s : List Char)
    (h : containsSub ("filename=".data) s = false) :
    firstFilenameMatch s = none := by
  induction s with
  | nil => rfl
  | cons c rest ih =>
    unfold containsSub at h
    cases hp : ("filename=".data).isPrefixOf (c :: rest) with
    | true => rw [hp] at h; simp at h
    | false =>
      rw [hp] at h
      simp only [Bool.false_or] at h
      unfold firstFilenameMatch
      simp only [hp]
      exact ih h

/-- C6: `downloadFile` never propagates an error to its caller (the whole
body is wrapped in `try`/`except`), and when the response's
`content-disposition` header contains no 'filename=' token the call
returns with no file written. -/
theorem c6_downloadFile_no_raise (env : DownloadEnv) :
    (downloadFile env).isOk = true ∧
    (∀ resp, env.response = Except.ok resp →
      containsStr "filename=" resp.disposition = false →
      downloadFile env = Except.ok []) := by
  constructor
  · unfold downloadFile
    cases downloadFileBody env <;> rfl
  · intro resp hresp hno
    have hm : firstFilenameMatch resp.disposition.data = none :=
      firstFilenameMatch_eq_none _ hno
    obtain ⟨response, writeResult⟩ := env
    simp only at hresp
    subst hresp
    simp [downloadFile, downloadFileBody, hm]

theorem c6_downloadFile_no_raise_witness :
    (downloadFile ⟨Except.ok ⟨"attachment", "BODY"⟩, Except.ok ()⟩).isOk = true ∧
    downloadFile ⟨Except.ok ⟨"attachment", "BODY"⟩, Except.ok ()⟩ = Except.ok [] :=
  ⟨(c6_downloadFile_no_raise ⟨Except.ok ⟨"attachment", "BODY"⟩, Except.ok ()⟩).1,
   (c6_downloadFile_no_raise ⟨Except.ok ⟨"attachment", "BODY"⟩, Except.ok ()⟩).2
     ⟨"attachment", "BODY"⟩ rfl (by decide)⟩

/-- C5 counterexample: the code's test is `ext.upper() == '.TIF'`, so the
mixed-case file 'scene.TiF' — whose extension is not the uppercase string
'.TIF' — is still renamed, to 'scene.tif'; the pass does not leave every
file without an uppercase '.TIF' extension untouched. -/
theorem c5_counterexample :
    (splitext "scene.TiF").2 ≠ ".TIF" ∧
    renameStep "scene.TiF" = "scene.tif" ∧
    "scene.tif" ≠ "scene.TiF" := by
  decide

/-- C5 (amended): the rename pass maps 'SCENE1.TIF' to 'SCENE1.tif',
leaves 'scene2.tif' unchanged and 'readme.TXT' unchanged; in general it
rewrites exactly the files whose extension uppercases to '.TIF' (a
case-insensitive match, e.g. also '.TiF'), replacing the extension with
lowercase '.tif', and leaves every other file untouched. -/
theorem c5_amended :
    renameStep "SCENE1.TIF" = "SCENE1.tif" ∧
    renameStep "scene2.tif" = "scene2.tif" ∧
    renameStep "readme.TXT" = "readme.TXT" ∧
    (∀ f : String, strUpper (splitext f).2 ≠ ".TIF" → renameStep f = f) ∧
    (∀ f : String, strUpper (splitext f).2 = ".TIF" →
      renameStep f = (splitext f).1 ++ ".tif") := by
  refine ⟨by decide, by decide, by decide, ?_, ?_⟩
  · intro f hf; unfold renameStep; rw [if_neg hf]
  · intro f hf; unfold renameStep; rw [if_pos hf]

theorem c5_amended_witness :
    renameStep "SCENE1.TIF" = "SCENE1.tif" ∧
    strUpper (splitext "readme.TXT").2 ≠ ".TIF" ∧
    renameStep "readme.TXT" = "readme.TXT" ∧
    strUpper (splitext "a.TiF").2 = ".TIF" ∧
    renameStep "a.TiF" = (splitext "a.TiF").1 ++ ".tif" :=
  ⟨c5_amended.1, by decide, c5_amended.2.2.2.1 "readme.TXT" (by decide),
   by decide, c5_amended.2.2.2.2 "a.TiF" (by decide)⟩

theorem c3_candidate_selection_witness :
    accumulateItem [⟨"E0", "P0"⟩] ⟨true, "X_ST_B6", "E", "P"⟩ ≠ [⟨"E0", "P0"⟩] ↔
      ((true : Bool) = true ∧
        (containsStr "QA_PIXEL" "X_ST_B6" = true ∨
         containsStr "ST_B10" "X_ST_B6" = true ∨
         containsStr "ST_B6" "X_ST_B6" = true)) :=
  c3_candidate_selection [⟨"E0", "P0"⟩] ⟨true, "X_ST_B6", "E", "P"⟩

theorem c4_empty_accumulator_exit_witness :
    finalize [] "20240101_120000" =
      [MainAction.printMsg "No valid downloads found.", MainAction.exitCode 0] ∧
    (finalize [] "20240101_120000").filter isDownloadRequest = [] :=
  c4_empty_accumulator_exit "20240101_120000"
